import Mathlib

/-!
Shallow embedding of the HTTP client layer in `src/Content/api.py`
(request dispatcher with retries, pagination driver, Link-header parser),
together with theorems about its behaviour.

Modelling choices:
* Decoded JSON page bodies are opaque payloads, represented as strings.
* The network is a scripted transport double: a function from the global
  transport-call index to either a transport-level `APIError` or a `Resp`
  (status, headers, text body, decoded JSON body), mirroring
  `Session.request` returning `Response | APIError`.
* Side effects (transport calls, `asyncio.sleep`) are recorded in an event
  trace; `max_retries`, `retry_delay`, `max_pages`, `per_page` are `Int`
  (Python ints).
* A Python exception escaping a function is an explicit `exn` outcome.
* Python dicts (headers, query params) are insertion-ordered association
  lists with unique keys; `dSet` overwrites in place, `dGet` is `dict.get`.
-/

/-- Python `dict.get k` over an association list. -/
def dGet {β : Type} : List (String × β) → String → Option β
  | [], _ => none
  | (k, v) :: rest, key => if k = key then some v else dGet rest key

/-- Python `d[k] = v` over an association list: overwrite the existing
binding in place, else append (insertion order preserved). -/
def dSet {β : Type} : List (String × β) → String → β → List (String × β)
  | [], key, v => [(key, v)]
  | (k, w) :: rest, key, v =>
      if k = key then (key, v) :: rest else (k, w) :: dSet rest key v

/-- Value of a nonempty digit string. -/
def digitsToNat (cs : List Char) : Nat :=
  cs.foldl (fun a c => a * 10 + (c.toNat - 48)) 0

/-- Python `int(s)` on a string: strip whitespace, optional sign, decimal
digits; `none` models the `ValueError` raised on anything else. -/
def pyInt (s : String) : Option Int :=
  let cs := ((s.data.dropWhile Char.isWhitespace).reverse.dropWhile
    Char.isWhitespace).reverse
  match cs with
  | [] => none
  | '+' :: rest =>
      if rest ≠ [] ∧ rest.all Char.isDigit then some (digitsToNat rest) else none
  | '-' :: rest =>
      if rest ≠ [] ∧ rest.all Char.isDigit then some (-(digitsToNat rest : Int))
      else none
  | _ => if cs.all Char.isDigit then some (digitsToNat cs) else none

/-- Decoded JSON page body, treated as an opaque payload. -/
abbrev Json := String

/-- Model of `APIError` from `api.py`: status code and message, an ordinary value. -/
structure APIError where
  status_code : Int
  message : String
deriving DecidableEq, Repr

/-- One HTTP response as seen through the `Response` interface of `api.py`:
status, headers, and the two body accessors (`text()` and `json()`). -/
structure Resp where
  status : Int
  headers : List (String × String)
  bodyText : String
  bodyJson : Json
deriving DecidableEq, Repr

/-- Scripted transport double: the result of the i-th `session.request`
call overall (a transport-level `APIError` or a response). -/
abbrev Transport := Nat → Sum APIError Resp

/-- Value of a Python query parameter (string or int). -/
inductive PVal where
  | str : String → PVal
  | int : Int → PVal
deriving DecidableEq, Repr

/-- Query-parameter dict. -/
abbrev Params := List (String × PVal)

/-- Observable side effect: a transport call (with its global index and the
requested url) or a sleep of the given number of seconds. -/
inductive Ev where
  | call : Nat → String → Ev
  | sleep : Int → Ev
deriving DecidableEq, Repr

/-! ### Link-header parsing (`get_next_page_url`) -/

/-- Python `s.split(",")` on a character list: split at every comma,
empty segments kept. -/
def splitComma : List Char → List (List Char)
  | [] => [[]]
  | c :: rest =>
      match splitComma rest with
      | [] => if c = ',' then [[], []] else [[c]]
      | h :: t => if c = ',' then [] :: h :: t else (c :: h) :: t

/-- Index of the first occurrence of `sub` in a character list. -/
def subFind (sub : List Char) : List Char → Option Nat
  | [] => if sub.isPrefixOf ([] : List Char) then some 0 else none
  | c :: rest =>
      if sub.isPrefixOf (c :: rest) then some 0
      else (subFind sub rest).map (· + 1)

/-- Python `s.find(sub)`: first index, or `-1` when absent. -/
def pyFind (s sub : List Char) : Int :=
  match subFind sub s with
  | some n => (n : Int)
  | none => -1

/-- Python `sub in s` substring test. -/
def pyContains (s sub : List Char) : Bool :=
  (subFind sub s).isSome

/-- Normalize a Python slice index against a length (negative counts from
the end, out-of-range clamps). -/
def normIdx (len : Nat) (i : Int) : Nat :=
  if i < 0 then ((len : Int) + i).toNat else min i.toNat len

/-- Python `s[a:b]` slicing on a character list. -/
def pySlice (s : List Char) (a b : Int) : List Char :=
  (s.take (normIdx s.length b)).drop (normIdx s.length a)

/-- The literal `rel="next"` searched for in each Link-header entry. -/
def nextPattern : List Char := "rel=\"next\"".data

/-- The `for link in link_header.split(","):` loop body of
`get_next_page_url`: first segment containing `rel="next"`, sliced between
the first `<` and the first `>`; falls through to `""`. -/
def findNextLink : List (List Char) → List Char
  | [] => []
  | l :: rest =>
      if pyContains l nextPattern then pySlice l (pyFind l ['<'] + 1) (pyFind l ['>'])
      else findNextLink rest

/-- Model of `get_next_page_url` from `api.py`: parse the `Link` header for the
`rel="next"` entry's URL. -/
def get_next_page_url (r : Resp) : String :=
  let link_header := (dGet r.headers "Link").getD ""
  if link_header ≠ "" then ⟨findNextLink (splitComma link_header.data)⟩
  else ""

example :
    get_next_page_url
      ⟨200,
       [("Link",
         "<https://api.example.com/page2>; rel=\"next\", <https://api.example.com/page9>; rel=\"last\"")],
       "", ""⟩
      = "https://api.example.com/page2" := by decide

example : get_next_page_url ⟨200, [], "", ""⟩ = "" := by decide

/-! ### Request dispatcher (`request_dispatcher`) -/

/-- Outcome of one dispatch: a response, an `APIError` value, or a Python
exception escaping the function. -/
inductive DOutcome where
  | ok : Resp → DOutcome
  | err : APIError → DOutcome
  | exn : String → DOutcome
deriving DecidableEq, Repr

/-- Result of a dispatch: outcome, events emitted (in order), and the next
free transport-call index. -/
structure DispRes where
  outcome : DOutcome
  events : List Ev
  nextIdx : Nat
deriving DecidableEq, Repr

/-- Model of `int(response.headers.get("Retry-After", retry_delay))`: header absent
falls back to `retry_delay`; a present but unparseable header raises
`ValueError` (modelled as `.error`). -/
def retryAfter (headers : List (String × String)) (retry_delay : Int) :
    Except String Int :=
  match dGet headers "Retry-After" with
  | none => .ok retry_delay
  | some s =>
      match pyInt s with
      | some n => .ok n
      | none => .error ("ValueError: invalid literal for int() with base 10: " ++ s)

/-- The `for attempt in range(max_retries):` loop of `request_dispatcher`,
with `remaining` the attempts left and `idx` the next transport-call index;
`events` lists the side effects of these attempts in order. -/
def dispatchGo (transport : Transport) (url : String) (retry_delay : Int) :
    Nat → Nat → DispRes
  | 0, idx => ⟨.err ⟨0, "Max retries reached without success."⟩, [], idx⟩
  | remaining + 1, idx =>
      match transport idx with
      | .inl e => ⟨.err e, [.call idx url], idx + 1⟩
      | .inr r =>
          if r.status = 200 then ⟨.ok r, [.call idx url], idx + 1⟩
          else if r.status = 401 then
            ⟨.err ⟨401, "Unauthorized access. Check your token."⟩,
              [.call idx url], idx + 1⟩
          else if r.status = 403 then
            match retryAfter r.headers retry_delay with
            | .error m => ⟨.exn m, [.call idx url], idx + 1⟩
            | .ok n =>
                let d := dispatchGo transport url retry_delay remaining (idx + 1)
                ⟨d.outcome, .call idx url :: .sleep n :: d.events, d.nextIdx⟩
          else if r.status = 404 then
            ⟨.err ⟨404, "Resource not found."⟩, [.call idx url], idx + 1⟩
          else if 500 ≤ r.status then
            let d := dispatchGo transport url retry_delay remaining (idx + 1)
            ⟨d.outcome, .call idx url :: .sleep retry_delay :: d.events, d.nextIdx⟩
          else
            ⟨.err ⟨r.status, "Unexpected error: " ++ r.bodyText⟩,
              [.call idx url], idx + 1⟩

/-- Model of `request_dispatcher` from `api.py`: up to `max_retries` attempts
(`range` of a non-positive int is empty), flat `retry_delay` backoff on
5xx, `Retry-After`-driven backoff on 403. The request headers and params
are forwarded to the transport, whose scripted answers are keyed by the
call index. -/
def request_dispatcher (transport : Transport) (method url : String)
    (max_retries retry_delay : Int) (idx : Nat) : DispRes :=
  dispatchGo transport url retry_delay max_retries.toNat idx

/-! ### Pagination driver (`fetch_paginated_data`) -/

/-- Outcome of a paginated fetch. -/
inductive FOutcome where
  | ok : List Json → FOutcome
  | err : APIError → FOutcome
  | exn : String → FOutcome
deriving DecidableEq, Repr

/-- Result of a paginated fetch: outcome, the final value of the `params`
variable (which, for a caller-supplied dict, is the caller's dict after the
in-place mutations), events, and the next free transport-call index. -/
structure FetchRes where
  outcome : FOutcome
  finalParams : Option Params
  events : List Ev
  nextIdx : Nat
deriving DecidableEq, Repr

/-- The `while url and page_count < max_pages:` loop of
`fetch_paginated_data`. `fuel` is `(max_pages - page_count).toNat`, the
exact number of remaining loop iterations permitted by the page budget;
when it is zero the loop guard `page_count < max_pages` is false, so the
zero-fuel branch coincides with the loop exit. -/
def fetchGo (transport : Transport) (headers : List (String × String))
    (per_page max_retries retry_delay : Int) :
    Nat → String → Option Params → List Json → Int → Int → Nat → FetchRes
  | 0, _url, params, results, _page_count, _max_pages, idx =>
      ⟨.ok results, params, [], idx⟩
  | fuel + 1, url, params, results, page_count, max_pages, idx =>
      if url ≠ "" ∧ page_count < max_pages then
        let ps := dSet (params.getD []) "per_page" (.int per_page)
        let d := request_dispatcher transport "GET" url max_retries retry_delay idx
        match d.outcome with
        | .err e => ⟨.err e, some ps, d.events, d.nextIdx⟩
        | .exn m => ⟨.exn m, some ps, d.events, d.nextIdx⟩
        | .ok r =>
            let f :=
              fetchGo transport headers per_page max_retries retry_delay fuel
                (get_next_page_url r) (some ps) (results ++ [r.bodyJson])
                (page_count + 1) max_pages d.nextIdx
            ⟨f.outcome, f.finalParams, d.events ++ f.events, f.nextIdx⟩
      else ⟨.ok results, params, [], idx⟩

/-- Model of `fetch_paginated_data` from `api.py`: walk the `Link`-header chain from
`url`, at most `max_pages` pages, setting `params["per_page"]` before each
dispatch and aborting on the first `APIError`. `max_retries`/`retry_delay`
are the kwargs popped by the dispatcher (defaults 5 and 60). -/
def fetch_paginated_data (transport : Transport) (url : String)
    (headers : List (String × String)) (params : Option Params)
    (max_pages per_page max_retries retry_delay : Int) : FetchRes :=
  fetchGo transport headers per_page max_retries retry_delay
    max_pages.toNat url params [] 0 max_pages 0

/-! ### Trace observations -/

/-- Number of sleep events in a trace. -/
def countSleeps : List Ev → Nat
  | [] => 0
  | .sleep _ :: tr => countSleeps tr + 1
  | .call _ _ :: tr => countSleeps tr

/-- Number of transport-call events in a trace. -/
def countCalls : List Ev → Nat
  | [] => 0
  | .sleep _ :: tr => countCalls tr
  | .call _ _ :: tr => countCalls tr + 1

/-- Decoded bodies of the 200-status responses consumed by the transport
calls of a trace, in call order. -/
def okBodies (transport : Transport) : List Ev → List Json
  | [] => []
  | .call i _ :: tr =>
      (match transport i with
       | .inr r => if r.status = 200 then [r.bodyJson] else []
       | .inl _ => []) ++ okBodies transport tr
  | .sleep _ :: tr => okBodies transport tr

/-- Expected trace of an all-500 run: `n` attempts starting at call index
`idx`, each a transport call followed by a flat `rd`-second sleep. -/
def all500Trace (url : String) (rd : Int) : Nat → Nat → List Ev
  | 0, _ => []
  | n + 1, idx => .call idx url :: .sleep rd :: all500Trace url rd n (idx + 1)

/-! ### Scripted transport doubles used in concrete runs -/

/-- A 500 response with no headers. -/
def r500 : Resp := ⟨500, [], "", ""⟩

/-- Transport answering every attempt with a 500. -/
def t500 : Transport := fun _ => Sum.inr r500

/-- Transport answering every attempt with a 401. -/
def t401 : Transport := fun _ => Sum.inr ⟨401, [], "", ""⟩

/-- Transport answering every attempt with a 404. -/
def t404 : Transport := fun _ => Sum.inr ⟨404, [], "", ""⟩

/-- A 403 response whose `Retry-After` header is not parseable as an int. -/
def r403bad : Resp := ⟨403, [("Retry-After", "abc")], "", ""⟩

/-- Transport answering every attempt with `r403bad`. -/
def t403bad : Transport := fun _ => Sum.inr r403bad

/-- A 403 response with numeric `Retry-After: 120`. -/
def r403ra : Resp := ⟨403, [("Retry-After", "120")], "", ""⟩

/-- Transport answering every attempt with `r403ra`. -/
def t403ra : Transport := fun _ => Sum.inr r403ra

/-- A 403 response with no `Retry-After` header. -/
def r403no : Resp := ⟨403, [("X-RateLimit-Remaining", "0")], "", ""⟩

/-- Transport answering every attempt with `r403no`. -/
def t403no : Transport := fun _ => Sum.inr r403no

/-- A 200 page carrying a `rel="next"` link. -/
def rNext : Resp :=
  ⟨200, [("Link", "<https://api.example.com/p>; rel=\"next\"")], "", "pageBody"⟩

/-- Transport answering every attempt with `rNext` (an infinite chain). -/
def tNext : Transport := fun _ => Sum.inr rNext

/-- A 200 page with no `Link` header (a final page). -/
def rLast : Resp := ⟨200, [], "", "body0"⟩

/-- Transport answering every attempt with `rLast`. -/
def tLast : Transport := fun _ => Sum.inr rLast

example :
    request_dispatcher t500 "GET" "u" 1 60 0 =
      ⟨.err ⟨0, "Max retries reached without success."⟩,
        [.call 0 "u", .sleep 60], 1⟩ := by decide

example :
    (fetch_paginated_data tNext "u" [] none 2 30 5 60).outcome =
      .ok ["pageBody", "pageBody"] := by decide

example :
    fetch_paginated_data tLast "u" []
        (some [("q", .str "x"), ("page", .int 1)]) 5 30 5 60 =
      ⟨.ok ["body0"],
        some [("q", .str "x"), ("page", .int 1), ("per_page", .int 30)],
        [.call 0 "u"], 1⟩ := by decide

/-! ### Helper lemmas -/

theorem dGet_dSet_ne {β : Type} (d : List (String × β)) (key k : String)
    (v : β) (hk : k ≠ key) : dGet (dSet d key v) k = dGet d k := by
  have hk' : key ≠ k := Ne.symm hk
  induction d with
  | nil => simp [dSet, dGet, hk']
  | cons e rest ih =>
      obtain ⟨k', w⟩ := e
      by_cases h1 : k' = key
      · subst h1
        simp [dSet, dGet, hk']
      · simp only [dSet, if_neg h1, dGet]
        by_cases h2 : k' = k
        · simp [h2]
        · simp [h2, ih]

theorem okBodies_append (t : Transport) (a b : List Ev) :
    okBodies t (a ++ b) = okBodies t a ++ okBodies t b := by
  induction a with
  | nil => simp [okBodies]
  | cons e rest ih =>
      cases e with
      | call i u => simp [okBodies, ih, List.append_assoc]
      | sleep d => simp [okBodies, ih]

theorem findNextLink_of_none (ls : List (List Char))
    (h : ∀ seg ∈ ls, pyContains seg nextPattern = false) :
    findNextLink ls = [] := by
  induction ls with
  | nil => rfl
  | cons l rest ih =>
      simp only [findNextLink, h l (List.mem_cons_self l rest)]
      simp only [Bool.false_eq_true, if_false]
      exact ih (fun seg hs => h seg (List.mem_cons_of_mem l hs))

theorem countSleeps_all500Trace (url : String) (rd : Int) :
    ∀ n idx, countSleeps (all500Trace url rd n idx) = n := by
  intro n
  induction n with
  | zero => intro idx; simp [all500Trace, countSleeps]
  | succ n ih => intro idx; simp [all500Trace, countSleeps, ih]

theorem getLast_cons_some {α : Type} (a : α) (l : List α) (x : α)
    (h : l.getLast? = some x) : (a :: l).getLast? = some x := by
  cases l with
  | nil => simp at h
  | cons b m => rw [List.getLast?_cons_cons]; exact h

theorem getLast_all500Trace (url : String) (rd : Int) :
    ∀ n idx, (all500Trace url rd (n + 1) idx).getLast? = some (.sleep rd) := by
  intro n
  induction n with
  | zero => intro idx; simp [all500Trace]
  | succ n ih =>
      intro idx
      have hstep : all500Trace url rd (n + 1 + 1) idx =
          .call idx url :: .sleep rd :: all500Trace url rd (n + 1) (idx + 1) := rfl
      rw [hstep]
      exact getLast_cons_some _ _ _ (getLast_cons_some _ _ _ (ih (idx + 1)))

theorem dispatch_first_200 (t : Transport) (method url : String)
    (mr rd : Int) (idx : Nat) (r : Resp) (h1 : 1 ≤ mr)
    (ht : t idx = Sum.inr r) (h2 : r.status = 200) :
    request_dispatcher t method url mr rd idx =
      ⟨.ok r, [.call idx url], idx + 1⟩ := by
  obtain ⟨k, hk⟩ : ∃ k, mr.toNat = k + 1 := ⟨mr.toNat - 1, by omega⟩
  unfold request_dispatcher
  rw [hk]
  simp [dispatchGo, ht, h2]

theorem dispatch_first_401 (t : Transport) (method url : String)
    (mr rd : Int) (idx : Nat) (r : Resp) (h1 : 1 ≤ mr)
    (ht : t idx = Sum.inr r) (h2 : r.status = 401) :
    request_dispatcher t method url mr rd idx =
      ⟨.err ⟨401, "Unauthorized access. Check your token."⟩,
        [.call idx url], idx + 1⟩ := by
  obtain ⟨k, hk⟩ : ∃ k, mr.toNat = k + 1 := ⟨mr.toNat - 1, by omega⟩
  unfold request_dispatcher
  rw [hk]
  simp [dispatchGo, ht, h2]

theorem dispatch_first_404 (t : Transport) (method url : String)
    (mr rd : Int) (idx : Nat) (r : Resp) (h1 : 1 ≤ mr)
    (ht : t idx = Sum.inr r) (h2 : r.status = 404) :
    request_dispatcher t method url mr rd idx =
      ⟨.err ⟨404, "Resource not found."⟩, [.call idx url], idx + 1⟩ := by
  obtain ⟨k, hk⟩ : ∃ k, mr.toNat = k + 1 := ⟨mr.toNat - 1, by omega⟩
  unfold request_dispatcher
  rw [hk]
  simp [dispatchGo, ht, h2]

theorem dispatchGo_all500 (t : Transport) (url : String) (rd : Int)
    (hall : ∀ i, ∃ r, t i = Sum.inr r ∧ r.status = 500) :
    ∀ n idx, dispatchGo t url rd n idx =
      ⟨.err ⟨0, "Max retries reached without success."⟩,
        all500Trace url rd n idx, idx + n⟩ := by
  intro n
  induction n with
  | zero => intro idx; simp [dispatchGo, all500Trace]
  | succ n ih =>
      intro idx
      obtain ⟨r, ht, h5⟩ := hall idx
      simp only [dispatchGo, ht, h5]
      norm_num
      rw [ih (idx + 1)]
      simp only [all500Trace, DispRes.mk.injEq, true_and, and_true]
      omega

theorem dispatchGo_ok_okBodies (t : Transport) (url : String) (rd : Int) :
    ∀ n idx r, (dispatchGo t url rd n idx).outcome = .ok r →
      okBodies t (dispatchGo t url rd n idx).events = [r.bodyJson] := by
  intro n
  induction n with
  | zero => intro idx r h; simp [dispatchGo] at h
  | succ n ih =>
      intro idx r h
      rcases ht : t idx with e | r'
      · simp [dispatchGo, ht] at h
      · simp only [dispatchGo, ht] at h ⊢
        by_cases h200 : r'.status = 200
        · simp only [if_pos h200] at h ⊢
          simp at h
          subst h
          simp [okBodies, ht, h200]
        · simp only [if_neg h200] at h ⊢
          by_cases h401 : r'.status = 401
          · simp [if_pos h401] at h
          · simp only [if_neg h401] at h ⊢
            by_cases h403 : r'.status = 403
            · simp only [if_pos h403] at h ⊢
              rcases hra : retryAfter r'.headers rd with m | v
              · simp [hra] at h
              · simp only [hra] at h ⊢
                simp [okBodies, ht, h200]
                exact ih (idx + 1) r (by simpa using h)
            · simp only [if_neg h403] at h ⊢
              by_cases h404 : r'.status = 404
              · simp [if_pos h404] at h
              · simp only [if_neg h404] at h ⊢
                by_cases h500 : 500 ≤ r'.status
                · simp only [if_pos h500] at h ⊢
                  simp [okBodies, ht, h200]
                  exact ih (idx + 1) r (by simpa using h)
                · simp [if_neg h500] at h

theorem dispatcher_ok_okBodies (t : Transport) (method url : String)
    (mr rd : Int) (idx : Nat) (r : Resp)
    (h : (request_dispatcher t method url mr rd idx).outcome = .ok r) :
    okBodies t (request_dispatcher t method url mr rd idx).events =
      [r.bodyJson] :=
  dispatchGo_ok_okBodies t url rd mr.toNat idx r h

theorem fetchGo_ok_spec (t : Transport) (headers : List (String × String))
    (pp mr rd : Int) :
    ∀ fuel url params results pc mp idx pages,
      (fetchGo t headers pp mr rd fuel url params results pc mp idx).outcome =
        .ok pages →
      pages = results ++
          okBodies t
            (fetchGo t headers pp mr rd fuel url params results pc mp idx).events
        ∧ pages.length ≤ results.length + fuel := by
  intro fuel
  induction fuel with
  | zero =>
      intro url params results pc mp idx pages h
      simp only [fetchGo] at h
      simp only [FOutcome.ok.injEq] at h
      subst h
      simp [fetchGo, okBodies]
  | succ fuel ih =>
      intro url params results pc mp idx pages h
      by_cases hg : url ≠ "" ∧ pc < mp
      · simp only [fetchGo, if_pos hg] at h ⊢
        cases hd : (request_dispatcher t "GET" url mr rd idx).outcome with
        | ok r =>
            simp only [hd] at h ⊢
            obtain ⟨h1, h2⟩ := ih (get_next_page_url r)
              (some (dSet (params.getD []) "per_page" (.int pp)))
              (results ++ [r.bodyJson]) (pc + 1) mp
              ((request_dispatcher t "GET" url mr rd idx).nextIdx) pages
              (by simpa using h)
            constructor
            · rw [okBodies_append, dispatcher_ok_okBodies t "GET" url mr rd idx r hd]
              simpa [List.append_assoc] using h1
            · have hl : (results ++ [r.bodyJson]).length = results.length + 1 := by
                simp
              rw [hl] at h2
              omega
        | err e => simp [hd] at h
        | exn m => simp [hd] at h
      · simp only [fetchGo, if_neg hg] at h
        simp only [FOutcome.ok.injEq] at h
        subst h
        simp [fetchGo, if_neg hg, okBodies]

theorem fetchGo_params_frame (t : Transport) (headers : List (String × String))
    (pp mr rd : Int) :
    ∀ fuel url d results pc mp idx,
      ∃ d',
        (fetchGo t headers pp mr rd fuel url (some d) results pc mp idx).finalParams =
          some d'
        ∧ ∀ k, k ≠ "per_page" → dGet d' k = dGet d k := by
  intro fuel
  induction fuel with
  | zero =>
      intro url d results pc mp idx
      exact ⟨d, by simp [fetchGo], fun k _ => rfl⟩
  | succ fuel ih =>
      intro url d results pc mp idx
      by_cases hg : url ≠ "" ∧ pc < mp
      · cases hd : (request_dispatcher t "GET" url mr rd idx).outcome with
        | ok r =>
            obtain ⟨d', h1, h2⟩ := ih (get_next_page_url r)
              (dSet d "per_page" (.int pp)) (results ++ [r.bodyJson]) (pc + 1) mp
              ((request_dispatcher t "GET" url mr rd idx).nextIdx)
            refine ⟨d', ?_, fun k hk => ?_⟩
            · simp only [fetchGo, if_pos hg, hd]
              simpa using h1
            · rw [h2 k hk, dGet_dSet_ne d "per_page" k (.int pp) hk]
        | err e =>
            refine ⟨dSet d "per_page" (.int pp), ?_,
              fun k hk => dGet_dSet_ne d "per_page" k (.int pp) hk⟩
            simp [fetchGo, if_pos hg, hd]
        | exn m =>
            refine ⟨dSet d "per_page" (.int pp), ?_,
              fun k hk => dGet_dSet_ne d "per_page" k (.int pp) hk⟩
            simp [fetchGo, if_pos hg, hd]
      · exact ⟨d, by simp [fetchGo, if_neg hg], fun k _ => rfl⟩

theorem dispatchGo_events_head (t : Transport) (url : String) (rd : Int)
    (n idx : Nat) :
    ∃ rest, (dispatchGo t url rd (n + 1) idx).events = .call idx url :: rest := by
  simp only [dispatchGo]
  cases ht : t idx with
  | inl e => exact ⟨[], rfl⟩
  | inr r =>
      by_cases h200 : r.status = 200
      · exact ⟨[], by simp [h200]⟩
      · by_cases h401 : r.status = 401
        · exact ⟨[], by simp [h200, h401]⟩
        · by_cases h403 : r.status = 403
          · cases hra : retryAfter r.headers rd with
            | error m => exact ⟨[], by simp [h200, h401, h403, hra]⟩
            | ok v =>
                exact ⟨.sleep v :: (dispatchGo t url rd n (idx + 1)).events,
                  by simp [h200, h401, h403, hra]⟩
          · by_cases h404 : r.status = 404
            · exact ⟨[], by simp [h200, h401, h403, h404]⟩
            · by_cases h500 : 500 ≤ r.status
              · exact ⟨.sleep rd :: (dispatchGo t url rd n (idx + 1)).events,
                  by simp [h200, h401, h403, h404, h500]⟩
              · exact ⟨[], by simp [h200, h401, h403, h404, h500]⟩

theorem dispatch_first_403 (t : Transport) (method url : String)
    (mr rd : Int) (idx : Nat) (r : Resp) (v : Int) (h2 : 2 ≤ mr)
    (ht : t idx = Sum.inr r) (h403 : r.status = 403)
    (hra : retryAfter r.headers rd = .ok v) :
    ∃ rest, (request_dispatcher t method url mr rd idx).events =
      .call idx url :: .sleep v :: .call (idx + 1) url :: rest := by
  obtain ⟨k, hk⟩ : ∃ k, mr.toNat = k + 1 + 1 := ⟨mr.toNat - 2, by omega⟩
  unfold request_dispatcher
  rw [hk]
  obtain ⟨rest, hrest⟩ := dispatchGo_events_head t url rd k (idx + 1)
  refine ⟨rest, ?_⟩
  simp only [dispatchGo, ht, h403]
  norm_num [hra]
  exact hrest

/-! ### Claim theorems -/

/-- Claim C1 counterexample: with maxRetries = 1 and a transport answering
every attempt with HTTP status 500, `request_dispatcher` returns
APIError 0 "Max retries reached without success." but invokes the retry
sleep once, not maxRetries - 1 = 0 times: it sleeps after the final failed
attempt before returning. -/
theorem claim_C1_counterexample :
    (request_dispatcher t500 "GET" "u" 1 60 0).outcome =
        .err ⟨0, "Max retries reached without success."⟩
      ∧ countSleeps (request_dispatcher t500 "GET" "u" 1 60 0).events = 1
      ∧ ¬ countSleeps (request_dispatcher t500 "GET" "u" 1 60 0).events = 1 - 1 := by
  decide

/-- Claim C1 (amended): for every maxRetries ≥ 1 and every transport that
answers each attempt with HTTP status 500, `request_dispatcher` returns
APIError 0 "Max retries reached without success." and invokes the retry
sleep of retryDelaySeconds exactly maxRetries times, the last event being a
sleep after the final failed attempt. -/
theorem claim_C1_amended (t : Transport) (url : String) (mr rd : Int)
    (idx : Nat) (h1 : 1 ≤ mr)
    (hall : ∀ i, ∃ r, t i = Sum.inr r ∧ r.status = 500) :
    (request_dispatcher t "GET" url mr rd idx).outcome =
        .err ⟨0, "Max retries reached without success."⟩
      ∧ countSleeps (request_dispatcher t "GET" url mr rd idx).events = mr.toNat
      ∧ (request_dispatcher t "GET" url mr rd idx).events.getLast? =
          some (.sleep rd) := by
  have hres := dispatchGo_all500 t url rd hall mr.toNat idx
  unfold request_dispatcher
  rw [hres]
  refine ⟨rfl, countSleeps_all500Trace url rd mr.toNat idx, ?_⟩
  obtain ⟨k, hk⟩ : ∃ k, mr.toNat = k + 1 := ⟨mr.toNat - 1, by omega⟩
  rw [hk]
  exact getLast_all500Trace url rd k idx

/-- Witness for the amended claim C1 at maxRetries = 3. -/
theorem claim_C1_witness :
    (request_dispatcher t500 "GET" "u" 3 60 0).outcome =
        .err ⟨0, "Max retries reached without success."⟩
      ∧ countSleeps (request_dispatcher t500 "GET" "u" 3 60 0).events =
          (3 : Int).toNat
      ∧ (request_dispatcher t500 "GET" "u" 3 60 0).events.getLast? =
          some (.sleep 60) :=
  claim_C1_amended t500 "u" 3 60 0 (by norm_num) (fun _ => ⟨r500, rfl, rfl⟩)

/-- Claim C2: contrary to the spec, `request_dispatcher` is not
exception-free: a 403 response whose Retry-After header is present but not
parseable as an integer makes `int(...)` raise ValueError, which escapes
the function instead of falling back to a retryDelaySeconds sleep. -/
theorem claim_C2_throws :
    (request_dispatcher t403bad "GET" "u" 5 60 0).outcome =
      .exn "ValueError: invalid literal for int() with base 10: abc" := by
  decide

/-- Claim C7: for every transport whose response at the current index has
status 401 (resp. 404) and maxRetries ≥ 1, `request_dispatcher` returns the
fixed 401 (resp. 404) APIError with exactly one transport call and no
sleeps. -/
theorem claim_C7 (t : Transport) (url : String) (mr rd : Int) (idx : Nat)
    (r : Resp) (h1 : 1 ≤ mr) (ht : t idx = Sum.inr r) :
    (r.status = 401 →
      request_dispatcher t "GET" url mr rd idx =
        ⟨.err ⟨401, "Unauthorized access. Check your token."⟩,
          [.call idx url], idx + 1⟩)
    ∧ (r.status = 404 →
      request_dispatcher t "GET" url mr rd idx =
        ⟨.err ⟨404, "Resource not found."⟩, [.call idx url], idx + 1⟩) :=
  ⟨fun h2 => dispatch_first_401 t "GET" url mr rd idx r h1 ht h2,
   fun h2 => dispatch_first_404 t "GET" url mr rd idx r h1 ht h2⟩

/-- Witness for claim C7 on concrete 401 and 404 transports. -/
theorem claim_C7_witness :
    request_dispatcher t401 "GET" "u" 5 60 0 =
        ⟨.err ⟨401, "Unauthorized access. Check your token."⟩, [.call 0 "u"], 1⟩
    ∧ request_dispatcher t404 "GET" "u" 5 60 0 =
        ⟨.err ⟨404, "Resource not found."⟩, [.call 0 "u"], 1⟩ :=
  ⟨(claim_C7 t401 "u" 5 60 0 ⟨401, [], "", ""⟩ (by norm_num) rfl).1 rfl,
   (claim_C7 t404 "u" 5 60 0 ⟨404, [], "", ""⟩ (by norm_num) rfl).2 rfl⟩

/-- Claim C8: on a 403 response whose Retry-After header parses to R, the
dispatcher sleeps exactly R seconds between the first and the second
attempt; with no Retry-After header it sleeps retryDelaySeconds. -/
theorem claim_C8 (t : Transport) (url : String) (mr rd : Int) (idx : Nat)
    (r : Resp) (h2 : 2 ≤ mr) (ht : t idx = Sum.inr r)
    (h403 : r.status = 403) :
    (∀ s R, dGet r.headers "Retry-After" = some s → pyInt s = some R →
      (request_dispatcher t "GET" url mr rd idx).events.take 3 =
        [.call idx url, .sleep R, .call (idx + 1) url])
    ∧ (dGet r.headers "Retry-After" = none →
      (request_dispatcher t "GET" url mr rd idx).events.take 3 =
        [.call idx url, .sleep rd, .call (idx + 1) url]) := by
  constructor
  · intro s R hs hp
    have hra : retryAfter r.headers rd = .ok R := by simp [retryAfter, hs, hp]
    obtain ⟨rest, hrest⟩ :=
      dispatch_first_403 t "GET" url mr rd idx r R h2 ht h403 hra
    rw [hrest]
    rfl
  · intro hnone
    have hra : retryAfter r.headers rd = .ok rd := by simp [retryAfter, hnone]
    obtain ⟨rest, hrest⟩ :=
      dispatch_first_403 t "GET" url mr rd idx r rd h2 ht h403 hra
    rw [hrest]
    rfl

/-- Witness for claim C8 on concrete 403 transports, with and without a
numeric Retry-After header. -/
theorem claim_C8_witness :
    (request_dispatcher t403ra "GET" "u" 5 60 0).events.take 3 =
        [.call 0 "u", .sleep 120, .call 1 "u"]
    ∧ (request_dispatcher t403no "GET" "u" 5 60 0).events.take 3 =
        [.call 0 "u", .sleep 60, .call 1 "u"] :=
  ⟨(claim_C8 t403ra "u" 5 60 0 r403ra (by norm_num) rfl rfl).1 "120" 120
      (by decide) (by decide),
   (claim_C8 t403no "u" 5 60 0 r403no (by norm_num) rfl rfl).2 (by decide)⟩

/-- Claim C10: with max_retries ≤ 0 the loop body never runs:
`request_dispatcher` performs no transport call and no sleep and returns
APIError 0 "Max retries reached without success.". -/
theorem claim_C10 (t : Transport) (method url : String) (mr rd : Int)
    (idx : Nat) (h : mr ≤ 0) :
    request_dispatcher t method url mr rd idx =
      ⟨.err ⟨0, "Max retries reached without success."⟩, [], idx⟩ := by
  unfold request_dispatcher
  rw [Int.toNat_of_nonpos h]
  rfl

/-- Witness for claim C10 at max_retries = -2. -/
theorem claim_C10_witness :
    request_dispatcher t500 "GET" "u" (-2) 60 0 =
      ⟨.err ⟨0, "Max retries reached without success."⟩, [], 0⟩ :=
  claim_C10 t500 "GET" "u" (-2) 60 0 (by norm_num)

/-- Claim C3: at any loop state of `fetch_paginated_data` (arbitrary
accumulated results), if the current page's dispatch returns an APIError
the driver's result is that exact APIError — the accumulated page bodies
are discarded, regardless of how many prior pages succeeded. -/
theorem claim_C3 (t : Transport) (headers : List (String × String))
    (pp mr rd : Int) (fuel : Nat) (url : String) (params : Option Params)
    (results : List Json) (pc mp : Int) (idx : Nat) (e : APIError)
    (hu : url ≠ "") (hpc : pc < mp)
    (hd : (request_dispatcher t "GET" url mr rd idx).outcome = .err e) :
    (fetchGo t headers pp mr rd (fuel + 1) url params results pc mp idx).outcome =
      .err e := by
  simp only [fetchGo, if_pos (And.intro hu hpc), hd]

/-- Witness for claim C3: two pages already fetched, the third dispatch
returns a 404 APIError, and the driver returns exactly that error. -/
theorem claim_C3_witness :
    (fetchGo t404 [] 30 5 60 4 "u" none ["p1", "p2"] 1 5 2).outcome =
      .err ⟨404, "Resource not found."⟩ :=
  claim_C3 t404 [] 30 5 60 3 "u" none ["p1", "p2"] 1 5 2
    ⟨404, "Resource not found."⟩ (by decide) (by decide) (by decide)

/-- Claim C4: the pagination driver terminates on every input; with
maxPages = 2 against a transport whose every page is a 200 carrying a
rel-next link (an infinite chain) it returns exactly the first two page
bodies, and for every non-positive maxPages it performs no fetch and
returns the empty sequence. -/
theorem claim_C4 (t : Transport) (r : Nat → Resp)
    (headers : List (String × String)) (params : Option Params)
    (pp mr rd : Int) (url : String) (mp : Int) :
    (1 ≤ mr → (∀ i, t i = Sum.inr (r i)) → (∀ i, (r i).status = 200) →
      (∀ i, get_next_page_url (r i) ≠ "") → url ≠ "" →
      (fetch_paginated_data t url headers params 2 pp mr rd).outcome =
        .ok [(r 0).bodyJson, (r 1).bodyJson])
    ∧ (mp ≤ 0 →
      fetch_paginated_data t url headers params mp pp mr rd =
        ⟨.ok [], params, [], 0⟩) := by
  constructor
  · intro h1 ht h200 hn hu
    have d0 := dispatch_first_200 t "GET" url mr rd 0 (r 0) h1 (ht 0) (h200 0)
    have d1 := dispatch_first_200 t "GET" (get_next_page_url (r 0)) mr rd 1
      (r 1) h1 (ht 1) (h200 1)
    unfold fetch_paginated_data
    rw [show (2 : Int).toNat = 0 + 1 + 1 from rfl]
    simp only [fetchGo, if_pos (And.intro hu (by norm_num : (0 : Int) < 2)), d0]
    norm_num
    rw [if_neg (hn 0), d1]
  · intro hmp
    unfold fetch_paginated_data
    rw [Int.toNat_of_nonpos hmp]
    rfl

/-- Witness for claim C4: an infinite rel-next chain with maxPages = 2
yields exactly two pages, and maxPages = -1 yields the empty sequence with
no transport calls. -/
theorem claim_C4_witness :
    (fetch_paginated_data tNext "u" [] none 2 30 5 60).outcome =
        .ok [rNext.bodyJson, rNext.bodyJson]
    ∧ fetch_paginated_data tNext "u" [] none (-1) 30 5 60 =
        ⟨.ok [], none, [], 0⟩ :=
  ⟨(claim_C4 tNext (fun _ => rNext) [] none 30 5 60 "u" (-1)).1 (by norm_num)
      (fun _ => rfl) (fun _ => rfl) (fun _ => by decide) (by decide),
   (claim_C4 tNext (fun _ => rNext) [] none 30 5 60 "u" (-1)).2 (by norm_num)⟩

/-- Claim C5: every successful run of `fetch_paginated_data` returns at
most max_pages pages, and the returned sequence is exactly the decoded
bodies of the successful (200) page fetches of its trace, in fetch
order. -/
theorem claim_C5 (t : Transport) (url : String)
    (headers : List (String × String)) (params : Option Params)
    (mp pp mr rd : Int) (pages : List Json)
    (h : (fetch_paginated_data t url headers params mp pp mr rd).outcome =
      .ok pages) :
    pages.length ≤ mp.toNat
    ∧ pages =
        okBodies t (fetch_paginated_data t url headers params mp pp mr rd).events := by
  obtain ⟨h1, h2⟩ :=
    fetchGo_ok_spec t headers pp mr rd mp.toNat url params [] 0 mp 0 pages h
  exact ⟨by simpa using h2, by simpa using h1⟩

/-- Witness for claim C5 on a single-page run. -/
theorem claim_C5_witness :
    (["body0"] : List Json).length ≤ (5 : Int).toNat
    ∧ (["body0"] : List Json) =
        okBodies tLast (fetch_paginated_data tLast "u" [] none 5 30 5 60).events :=
  claim_C5 tLast "u" [] none 5 30 5 60 ["body0"] (by decide)

/-- Claim C6: on the documented example Link header the parser extracts
the rel-next URL, and whenever no comma-separated entry of the Link header
contains rel="next" (including an absent header, whose value defaults to
the empty string) it returns the empty string. -/
theorem claim_C6 :
    get_next_page_url
        ⟨200,
         [("Link",
           "<https://api.example.com/page2>; rel=\"next\", <https://api.example.com/page9>; rel=\"last\"")],
         "", ""⟩
      = "https://api.example.com/page2"
    ∧ ∀ r : Resp,
        (∀ seg ∈ splitComma (((dGet r.headers "Link").getD "").data),
          pyContains seg nextPattern = false) →
        get_next_page_url r = "" := by
  constructor
  · decide
  · intro r h
    unfold get_next_page_url
    by_cases hl : ((dGet r.headers "Link").getD "") = ""
    · simp [hl]
    · simp only [ne_eq, hl, not_false_eq_true, if_true]
      rw [findNextLink_of_none _ h]

/-- Witness for claim C6 on a Link header with only a rel-last entry. -/
theorem claim_C6_witness :
    get_next_page_url
        ⟨200, [("Link", "<https://api.example.com/page9>; rel=\"last\"")], "", ""⟩
      = "" :=
  claim_C6.2
    ⟨200, [("Link", "<https://api.example.com/page9>; rel=\"last\"")], "", ""⟩
    (by decide)

/-- Claim C9 counterexample: a run of `fetch_paginated_data` with a
caller-supplied mapping containing a page-cursor field "page": the driver
leaves "page" unchanged and instead changes the "per_page" field (absent
before the call, set afterwards) — the field the driver mutates is the
page-size field, not the page cursor. -/
theorem claim_C9_counterexample :
    (fetch_paginated_data tLast "u" []
        (some [("q", .str "x"), ("page", .int 1)]) 5 30 5 60).finalParams =
      some [("q", .str "x"), ("page", .int 1), ("per_page", .int 30)]
    ∧ dGet [("q", PVal.str "x"), ("page", PVal.int 1)] "per_page" = none
    ∧ dGet [("q", PVal.str "x"), ("page", PVal.int 1), ("per_page", PVal.int 30)]
        "page" = dGet [("q", PVal.str "x"), ("page", PVal.int 1)] "page" := by
  decide

/-- Claim C9 (amended): the only field of a caller-supplied
query-parameter mapping that `fetch_paginated_data` changes is "per_page";
every other field (the search term, any page-cursor field, ...) has the
same value when the call returns. -/
theorem claim_C9_amended (t : Transport) (url : String)
    (headers : List (String × String)) (d : Params) (mp pp mr rd : Int)
    (k : String) (hk : k ≠ "per_page") :
    (fetch_paginated_data t url headers (some d) mp pp mr rd).finalParams.isSome =
      true
    ∧ (fetch_paginated_data t url headers (some d) mp pp mr rd).finalParams.bind
        (fun d' => dGet d' k) = dGet d k := by
  obtain ⟨d', h1, h2⟩ :=
    fetchGo_params_frame t headers pp mr rd mp.toNat url d [] 0 mp 0
  unfold fetch_paginated_data
  rw [h1]
  exact ⟨rfl, by simpa using h2 k hk⟩

/-- Witness for the amended claim C9: the caller's "q" field is unchanged
after a run. -/
theorem claim_C9_witness :
    (fetch_paginated_data tLast "u" [] (some [("q", PVal.str "x")]) 5 30 5 60).finalParams.isSome =
      true
    ∧ (fetch_paginated_data tLast "u" [] (some [("q", PVal.str "x")]) 5 30 5 60).finalParams.bind
        (fun d' => dGet d' "q") = dGet [("q", PVal.str "x")] "q" :=
  claim_C9_amended tLast "u" [] [("q", PVal.str "x")] 5 30 5 60 "q" (by decide)

